import Mathlib

/-!
Shallow embedding of the autocast movie-casting system (Python sources:
`datatypes.py`, `source_apis/xprime_source.py`, `app.py`, `main.py`,
`roku_caster.py`) together with theorems checking the natural-language
specification against it.

Network I/O is modelled by passing the outcome of each upstream HTTP call
in explicitly (an environment value); everything else is translated
line by line from the Python source.
-/

set_option autoImplicit false
set_option linter.unusedVariables false

/-! ## Data model (`datatypes.py`) -/

/-- `VideoRequest` from `datatypes.py`.  `title`/`imdb_id`/`year` are
`Optional` in the source; `destination_tv` is required. -/
structure VideoRequest where
  title : Option String
  imdb_id : Option String
  year : Option Int
  destination_tv : String
  deriving Repr, DecidableEq

/-- `MediaMetadata` from `datatypes.py` (fields beyond `confirmed_title`
are `Optional`). -/
structure MediaMetadata where
  confirmed_title : String
  year : Option Int := none
  tmdb_id : Option Int := none
  imdb_id : Option String := none
  plot : Option String := none
  poster_url : Option String := none
  director : Option String := none
  actors : Option String := none
  runtime : Option String := none
  genre : Option String := none
  rating : Option String := none
  deriving Repr, DecidableEq

/-- `VideoStream` from `datatypes.py`, lines 33-37.  The model declares
exactly the four fields `url`, `media_type`, `quality`, `from_request`;
there is no `source`/`source_api` field in the source. -/
structure VideoStream where
  url : String
  media_type : String
  quality : String
  from_request : VideoRequest
  deriving Repr, DecidableEq

/-- `SearchResult` from `datatypes.py`. -/
structure SearchResult where
  api_name : String
  success : Bool
  streams_found : Nat
  message : Option String := none
  status : Option String := none
  error_details : Option String := none
  deriving Repr, DecidableEq

/-- `VideoSources` from `datatypes.py`. -/
structure VideoSources where
  sources : List VideoStream
  search_results : List SearchResult
  deriving Repr, DecidableEq

/-- `RokuDevice` from `datatypes.py`. -/
structure RokuDevice where
  name : String
  ip_address : String
  deriving Repr, DecidableEq

/-! ## Pydantic constructor-call semantics, for the `VideoStream(...)`
calls in `xprime_source.py`

Pydantic `BaseModel` with the default model config silently ignores
constructor keyword arguments whose names are not declared fields, and
attribute access on a name that is not a declared field raises
`AttributeError`.  This is modelled at the keyword-argument level so the
fate of the `source_api=...` argument passed by the providers can be
stated. -/

/-- A Python value appearing in a `VideoStream(...)` constructor call. -/
inductive PyVal where
  | vstr (s : String)
  | vreq (r : VideoRequest)
  deriving Repr, DecidableEq

/-- The declared field names of `VideoStream` (`datatypes.py` lines 33-37). -/
def videoStreamFields : List String :=
  ["url", "media_type", "quality", "from_request"]

/-- Pydantic default-config `__init__`: keyword arguments whose names are
not declared fields are dropped; the object stores only the declared ones. -/
def pydanticInit (declared : List String) (kwargs : List (String × PyVal)) :
    List (String × PyVal) :=
  kwargs.filter (fun kv => declared.contains kv.1)

/-- Python attribute access on a pydantic object: `none` means the
attribute is absent, i.e. the access raises `AttributeError`. -/
def pyGetattr (obj : List (String × PyVal)) (attr : String) : Option PyVal :=
  (obj.find? (fun kv => kv.1 == attr)).map (·.2)

/-- The keyword arguments of the `VideoStream(...)` constructor calls in
`xprime_source.py` (lines 90-98, 107-115, 346-354): every call passes
`url`, `media_type`, `quality`, `from_request` and `source_api=self.name`. -/
def videoStreamCallKwargs (url media_type quality : String)
    (from_request : VideoRequest) (source_api : String) :
    List (String × PyVal) :=
  [("url", PyVal.vstr url), ("media_type", PyVal.vstr media_type),
   ("quality", PyVal.vstr quality), ("from_request", PyVal.vreq from_request),
   ("source_api", PyVal.vstr source_api)]

/-- The `VideoStream` value those constructor calls actually produce:
the declared fields keep their arguments, the undeclared `source_api`
keyword is dropped by pydantic. -/
def mkVideoStream (url media_type quality : String)
    (from_request : VideoRequest) (source_api : String) : VideoStream :=
  { url := url, media_type := media_type, quality := quality,
    from_request := from_request }

/-! ## Media-type inference
(`XPrimeStreamAPI._get_media_type_from_url`, `xprime_source.py` 217-256;
`XPrimePrimenetAPI` carries an identical copy at lines 451-490). -/

/-- Python `s.split(sep)` for a one-character separator, over character
lists (structurally recursive so that proofs can evaluate it). -/
def pySplitChar (sep : Char) : List Char → List (List Char)
  | [] => [[]]
  | c :: cs =>
    match pySplitChar sep cs with
    | [] => [[]]
    | h :: t => if c = sep then [] :: h :: t else (c :: h) :: t

/-- Python `s.split("?")[0]`: the part of the string before the first `?`. -/
def pyStripQuery (s : String) : String :=
  String.mk ((pySplitChar '?' s.data).headD [])

/-- Python `s.lower()` (the inputs here are ASCII URLs). -/
def pyLower (s : String) : String :=
  String.mk (s.data.map Char.toLower)

/-- Python `s.endswith(t)`, via the character lists. -/
def pyEndswith (s t : String) : Bool :=
  t.data.isSuffixOf s.data

/-- Python `"." in s`. -/
def pyContainsDot (s : String) : Bool :=
  s.data.contains '.'

/-- Python `s.split(".")[-1]`. -/
def pyLastDotSegment (s : String) : String :=
  String.mk ((pySplitChar '.' s.data).getLastD [])

/-- Python `s.isalnum()` for ASCII strings: nonempty and every character
a letter or a digit. -/
def pyIsAlnum (s : String) : Bool :=
  !s.isEmpty && s.data.all (fun c => c.isAlpha || c.isDigit)

/-- The `video_extensions` list from `_get_media_type_from_url`. -/
def video_extensions : List String :=
  ["mp4", "mkv", "avi", "mov", "wmv", "flv", "webm", "m3u8"]

/-- `path_part = url.split("?")[0].lower()` from `_get_media_type_from_url`. -/
def pathPart (url : String) : String :=
  pyLower (pyStripQuery url)

/-- `XPrimeStreamAPI._get_media_type_from_url` (`xprime_source.py` 217-256):
strip the query string and lowercase; return the first known video
extension the result ends with; otherwise, if a dot is present and the
final dot-segment is alphanumeric of length at most 4, return it;
otherwise return `"mp4"`.  (None of the string operations involved can
raise, so the `try/except: pass` wrapper is inert.) -/
def get_media_type_from_url (url : String) : String :=
  let path_part := pathPart url
  match video_extensions.find? (fun ext => pyEndswith path_part ("." ++ ext)) with
  | some ext => ext
  | none =>
    if pyContainsDot path_part then
      let potential_ext := pyLastDotSegment path_part
      if potential_ext.length ≤ 4 && pyIsAlnum potential_ext then potential_ext
      else "mp4"
    else "mp4"

/-! ## Further Python string primitives used by the providers -/

/-- Python `s.replace(pat, repl)` (all occurrences), over character
lists, with explicit fuel so the definition is structurally recursive;
`fuel = l.length` always suffices because a non-empty matched pattern
consumes at least one character. -/
def pyReplaceAllAux (pat repl : List Char) : Nat → List Char → List Char
  | 0, l => l
  | _ + 1, [] => []
  | fuel + 1, c :: cs =>
    if pat.isPrefixOf (c :: cs) ∧ pat ≠ [] then
      repl ++ pyReplaceAllAux pat repl fuel ((c :: cs).drop pat.length)
    else
      c :: pyReplaceAllAux pat repl fuel cs

/-- Python `s.replace(pat, repl)` (all occurrences). -/
def pyReplaceAll (pat repl l : List Char) : List Char :=
  pyReplaceAllAux pat repl l.length l

/-- Python `s[:n]`. -/
def pyTake (s : String) (n : Nat) : String :=
  String.mk (s.data.take n)

/-- Python `", ".join(xs)`. -/
def pyJoinComma (xs : List String) : String :=
  String.intercalate ", " xs

/-! ## Provider display names

`XPrimeStreamAPI.name` (`xprime_source.py` 35-41) and
`XPrimePrimenetAPI.name` (`xprime_source.py` 288-290). -/

/-- `XPrimeStreamAPI.name`: strip the URL scheme, take the part before the
first `/` as the domain, and wrap it in the display-name template. -/
def xprimeName (base_url : String) : String :=
  let stripped := pyReplaceAll "http://".data [] (pyReplaceAll "https://".data [] base_url.data)
  let domain := String.mk ((pySplitChar '/' stripped).headD [])
  "XPrime (" ++ domain ++ ") Movie Streamer"

/-- `XPrimePrimenetAPI.name`. -/
def primenetName : String := "XPrime Primenet Movie Streamer"

/-! ## Upstream HTTP environments

Each provider issues one `GET`; its outcome is an input of the model. -/

/-- Outcome of a provider's upstream `GET`: a parsed 2xx JSON body, an
`httpx.HTTPStatusError` raised by `raise_for_status`, an
`httpx.RequestError`, or any other exception raised by provider code. -/
inductive UpstreamResult (δ : Type) where
  | success (data : δ)
  | httpStatusError (code : Nat) (text : String)
  | requestError (msg : String)
  | otherError (msg : String)
  deriving Repr

/-- The JSON object that `xprime.tv/primebox`-style endpoints return, as
the `XPrimeStreamAPI.search_streams` code reads it: `data.get("status")`,
the `"streams"` key (an ordered quality-label to URL map; `none` when the
key is absent), `data.get("message")`.  `repr` is the Python string
rendering of the whole object (used only inside human-readable messages)
and `truthy` is Python `bool(data)` (whether the object is non-empty). -/
structure XPrimeData where
  status : Option String
  streams : Option (List (String × String))
  message : Option String
  repr : String
  truthy : Bool
  deriving Repr

/-- The JSON object the `primenet` endpoint returns: the `"url"` key,
plus the rendering/truthiness of the whole object as above. -/
structure PrimenetData where
  url : Option String
  repr : String
  truthy : Bool
  deriving Repr

/-- A provider run: the returned `VideoSources` plus how many upstream
HTTP requests the provider issued. -/
structure ProviderRun where
  result : VideoSources
  http_requests : Nat
  deriving Repr

/-- `VideoSourceAPI.create_search_result` (`video_source_api.py` 45-73). -/
def create_search_result (api_name : String) (success : Bool)
    (streams_found : Nat) (message status error_details : Option String) :
    SearchResult :=
  { api_name := api_name, success := success, streams_found := streams_found,
    message := message, status := status, error_details := error_details }

/-! ## `XPrimeStreamAPI.search_streams` (`xprime_source.py` 43-215) -/

/-- The `preferred_qualities` list (`xprime_source.py` line 80). -/
def preferred_qualities : List String := ["1080P", "720P", "480P", "360P"]

/-- Python `d[k]` / `k in d` on the ordered `streams` map. -/
def pyDictGet (d : List (String × String)) (k : String) : Option String :=
  (d.find? (fun kv => kv.1 == k)).map (·.2)

/-- The two stream-building loops of the success branch
(`xprime_source.py` 82-116): first the preferred qualities in fixed
order, then every remaining quality in upstream order. -/
def xprimeSuccessStreams (original_request : VideoRequest) (api_name : String)
    (available_streams : List (String × String)) : List VideoStream :=
  let first_pass := preferred_qualities.foldl (fun acc quality =>
    match pyDictGet available_streams quality with
    | some stream_url =>
      acc ++ [mkVideoStream stream_url (get_media_type_from_url stream_url)
               quality original_request api_name]
    | none => acc) []
  available_streams.foldl (fun acc qu =>
    if preferred_qualities.contains qu.1 then acc
    else acc ++ [mkVideoStream qu.2 (get_media_type_from_url qu.2) qu.1
                  original_request api_name]) first_pass

/-- The search result of the no-streams branch (`xprime_source.py`
127-152); the Python message wraps the movie name in single quotes, which
are omitted here. -/
def xprimeNoStreamsResult (api_name movie_name : String) (data : XPrimeData) :
    SearchResult :=
  let api_status := data.status.getD "unknown"
  let api_message := data.message.getD "No streams available"
  let detailed_message :=
    "No streams found for " ++ movie_name ++
      (if api_message ≠ "" ∧ api_message ≠ "No streams available" then
        ". API message: " ++ api_message
      else "")
  create_search_result api_name false 0 (some detailed_message)
    (some api_status)
    (if data.truthy then some ("API returned: " ++ data.repr) else none)

/-- The search result of the `httpx.HTTPStatusError` branch of
`XPrimeStreamAPI.search_streams` (`xprime_source.py` 154-185). -/
def xprimeHttpErrorResult (api_name : String) (code : Nat) (text : String) :
    SearchResult :=
  let error_message :=
    if code = 429 then "Rate limited (HTTP 429). Try again in a few seconds"
    else "HTTP " ++ toString code ++ " error"
  let error_details :=
    (if text ≠ "" then "Response: " ++ pyTake text 200 else "No response body") ++
      (if code = 429 then
        ". Note: xprime.tv has rate limiting. Consider waiting between requests."
      else "")
  create_search_result api_name false 0 (some error_message)
    (some ("HTTP_" ++ toString code)) (some error_details)

/-- The search result of the `httpx.RequestError` branch
(`xprime_source.py` 187-199). -/
def requestErrorResult (api_name msg : String) : SearchResult :=
  create_search_result api_name false 0 (some ("Request error: " ++ msg))
    (some "REQUEST_ERROR") (some msg)

/-- The search result of the final `except Exception` branch
(`xprime_source.py` 201-213). -/
def unknownErrorResult (api_name msg : String) : SearchResult :=
  create_search_result api_name false 0 (some ("Unexpected error: " ++ msg))
    (some "UNKNOWN_ERROR") (some msg)

/-- A provider run that found the given streams and reports exactly one
search result, having issued `n` HTTP requests. -/
def providerRun (streams : List VideoStream) (r : SearchResult) (n : Nat) :
    ProviderRun :=
  { result := { sources := streams, search_results := [r] }, http_requests := n }

/-- The success-branch search result of `XPrimeStreamAPI.search_streams`
(`xprime_source.py` 118-126). -/
def xprimeSuccessResult (api_name : String) (data : XPrimeData)
    (streams_len : Nat) (available_streams : List (String × String)) :
    SearchResult :=
  create_search_result api_name true streams_len
    (some ("Successfully found " ++ toString streams_len ++
      " stream(s) in qualities: " ++ pyJoinComma (available_streams.map (·.1))))
    (some (data.status.getD "ok")) none

/-- `XPrimeStreamAPI.search_streams`: branch on the outcome of the single
upstream `GET`.  The success condition is the Python
`data.get("status") == "ok" and "streams" in data and data["streams"]`. -/
def xprime_search (base_url : String) (metadata : MediaMetadata)
    (original_request : VideoRequest) (resp : UpstreamResult XPrimeData) :
    ProviderRun :=
  let api_name := xprimeName base_url
  let movie_name := metadata.confirmed_title
  match resp with
  | .success data =>
    match data.streams with
    | some available_streams =>
      if data.status = some "ok" ∧ available_streams ≠ [] then
        let streams := xprimeSuccessStreams original_request api_name available_streams
        providerRun streams
          (xprimeSuccessResult api_name data streams.length available_streams) 1
      else
        providerRun [] (xprimeNoStreamsResult api_name movie_name data) 1
    | none => providerRun [] (xprimeNoStreamsResult api_name movie_name data) 1
  | .httpStatusError code text =>
    providerRun [] (xprimeHttpErrorResult api_name code text) 1
  | .requestError msg => providerRun [] (requestErrorResult api_name msg) 1
  | .otherError msg => providerRun [] (unknownErrorResult api_name msg) 1

/-! ## `XPrimePrimenetAPI.search_streams` (`xprime_source.py` 292-449) -/

/-- The search result of the `httpx.HTTPStatusError` branch of the
primenet provider (`xprime_source.py` 386-419): like the xprime one but
with a dedicated message for HTTP 404. -/
def primenetHttpErrorResult (tmdb_id : Int) (code : Nat) (text : String) :
    SearchResult :=
  let error_message :=
    if code = 404 then
      "Movie not found for TMDB ID " ++ toString tmdb_id ++ " (HTTP 404)"
    else if code = 429 then
      "Rate limited (HTTP 429). Try again in a few seconds"
    else "HTTP " ++ toString code ++ " error"
  let error_details :=
    (if text ≠ "" then "Response: " ++ pyTake text 200 else "No response body") ++
      (if code = 429 then
        ". Note: xprime.tv has rate limiting. Consider waiting between requests."
      else "")
  create_search_result primenetName false 0 (some error_message)
    (some ("HTTP_" ++ toString code)) (some error_details)

/-- The `NO_TMDB_ID` search result of the primenet provider
(`xprime_source.py` 308-320). -/
def primenetNoTmdbIdResult : SearchResult :=
  create_search_result primenetName false 0
    (some "No TMDB ID available for primenet search") (some "NO_TMDB_ID") none

/-- The `NO_URL_FOUND` search result of the primenet provider
(`xprime_source.py` 365-384). -/
def primenetNoUrlResult (tmdb_id : Int) (data : PrimenetData) : SearchResult :=
  create_search_result primenetName false 0
    (some ("No stream URL found for TMDB ID " ++ toString tmdb_id ++
      (if data.truthy then ". Response: " ++ data.repr else "")))
    (some "NO_URL_FOUND")
    (if data.truthy then some ("API returned: " ++ data.repr) else none)

/-- The success search result of the primenet provider
(`xprime_source.py` 356-364). -/
def primenetSuccessResult (tmdb_id : Int) : SearchResult :=
  create_search_result primenetName true 1
    (some ("Successfully found stream for TMDB ID " ++ toString tmdb_id))
    (some "ok") none

/-- `XPrimePrimenetAPI.search_streams`: if the metadata carries no TMDB id,
return immediately (status `NO_TMDB_ID`, no HTTP request); otherwise issue
the `GET` and branch on its outcome.  The success condition is the Python
`"url" in data and data["url"]`. -/
def primenet_search (metadata : MediaMetadata) (original_request : VideoRequest)
    (resp : UpstreamResult PrimenetData) : ProviderRun :=
  match metadata.tmdb_id with
  | none => providerRun [] primenetNoTmdbIdResult 0
  | some tmdb_id =>
    match resp with
    | .success data =>
      match data.url with
      | some stream_url =>
        if stream_url ≠ "" then
          let stream := mkVideoStream stream_url
            (get_media_type_from_url stream_url) "HD" original_request primenetName
          providerRun [stream] (primenetSuccessResult tmdb_id) 1
        else providerRun [] (primenetNoUrlResult tmdb_id data) 1
      | none => providerRun [] (primenetNoUrlResult tmdb_id data) 1
    | .httpStatusError code text =>
      providerRun [] (primenetHttpErrorResult tmdb_id code text) 1
    | .requestError msg => providerRun [] (requestErrorResult primenetName msg) 1
    | .otherError msg => providerRun [] (unknownErrorResult primenetName msg) 1

/-! ## The aggregation engine

`app.py` `search_movie`/`cast_movie` (lines 230-271 / 322-356) and
`main.py` `main_workflow` (lines 233-261) all run the same loop: call
every registered provider's `search_streams`, extend the stream and
search-result accumulators on success, and on any raised exception append
one synthesized failed `SearchResult` with status `"EXCEPTION"` and move
on to the next provider. -/

/-- One registered provider invocation: one of the concrete provider
classes together with its upstream outcome, or a provider whose
`search_streams` call raises (`msg` is `str(e)`). -/
inductive ProviderCall where
  | xprime (base_url : String) (resp : UpstreamResult XPrimeData)
  | primenet (resp : UpstreamResult PrimenetData)
  | raises (name msg : String)

/-- The provider's `name` property, as the engine's exception handler
reads it (`api_instance.name`). -/
def callName : ProviderCall → String
  | .xprime base_url _ => xprimeName base_url
  | .primenet _ => primenetName
  | .raises name _ => name

/-- Run one provider's `search_streams`: either its returned
`VideoSources` or the exception it raised. -/
def runCall (metadata : MediaMetadata) (original_request : VideoRequest) :
    ProviderCall → Except String VideoSources
  | .xprime base_url resp => .ok (xprime_search base_url metadata original_request resp).result
  | .primenet resp => .ok (primenet_search metadata original_request resp).result
  | .raises _ msg => .error msg

/-- The `SearchResult` the engine synthesizes in its `except Exception`
handler (`app.py` 262-271 and 347-356, `main.py` 253-261). -/
def exception_search_result (api_name msg : String) : SearchResult :=
  { api_name := api_name, success := false, streams_found := 0,
    message := some ("Exception during search: " ++ msg),
    status := some "EXCEPTION", error_details := some msg }

/-- The provider fan-out loop of `cast_movie` / `main_workflow`:
accumulate all streams and all search results in registration order,
isolating exceptions per provider. -/
def aggregate_providers (metadata : MediaMetadata)
    (original_request : VideoRequest) (calls : List ProviderCall) :
    List VideoStream × List SearchResult :=
  calls.foldl (fun acc call =>
    match runCall metadata original_request call with
    | .ok sources => (acc.1 ++ sources.sources, acc.2 ++ sources.search_results)
    | .error e => (acc.1, acc.2 ++ [exception_search_result (callName call) e]))
    ([], [])

/-- The streams one provider call contributes to the aggregate. -/
def callSources (metadata : MediaMetadata) (original_request : VideoRequest)
    (call : ProviderCall) : List VideoStream :=
  match runCall metadata original_request call with
  | .ok sources => sources.sources
  | .error _ => []

/-- The search results one provider call contributes to the aggregate. -/
def callOutcomes (metadata : MediaMetadata) (original_request : VideoRequest)
    (call : ProviderCall) : List SearchResult :=
  match runCall metadata original_request call with
  | .ok sources => sources.search_results
  | .error e => [exception_search_result (callName call) e]

/-! ## The stream selector

`app.py` `cast_movie` lines 366-368 and `perform_background_cast` lines
488-490, reached only when `all_streams` is non-empty:
`stream_index = min(request.stream_index, len(all_streams) - 1);
selected_stream = all_streams[stream_index]`. -/

/-- Python list indexing `xs[i]`: non-negative indices from the front,
negative indices from the back, `IndexError` outside `[-len, len)`. -/
def pyListGet (xs : List VideoStream) (i : Int) : Except String VideoStream :=
  if 0 ≤ i then
    match xs.get? i.toNat with
    | some s => .ok s
    | none => .error "IndexError"
  else
    let j := (xs.length : Int) + i
    if 0 ≤ j then
      match xs.get? j.toNat with
      | some s => .ok s
      | none => .error "IndexError"
    else .error "IndexError"

/-- The stream selector of `cast_movie` / `perform_background_cast`. -/
def select_stream (all_streams : List VideoStream) (stream_index : Int) :
    Except String VideoStream :=
  pyListGet all_streams (min stream_index ((all_streams.length : Int) - 1))

/-! ## The Roku cast state machine (`roku_caster.py`) -/

/-- Outcome of one HTTP call to the device: a status code, or a raised
timeout/connection/request error. -/
inductive NetResult where
  | httpOk (code : Nat)
  | exn (msg : String)
  deriving Repr, DecidableEq

/-- `check_roku_responsive` (`roku_caster.py` 14-31): true iff the status
query returned HTTP 200; any raised error is false. -/
def check_roku_responsive : NetResult → Bool
  | .httpOk code => code == 200
  | .exn _ => false

/-- `power_on_roku` (`roku_caster.py` 34-50): true iff the wake command
returned a status in `[200, 202]`; any raised error is false. -/
def power_on_roku : NetResult → Bool
  | .httpOk code => [200, 202].contains code
  | .exn _ => false

/-- Observable record of one `wait_for_roku_ready` run. -/
structure WaitRun where
  ready : Bool
  checks : Nat
  sleeps : Nat
  deriving Repr, DecidableEq

/-- The body of the `for attempt in range(max_wait_time)` loop of
`wait_for_roku_ready` (`roku_caster.py` 69-77), structurally recursive on
the number of remaining iterations: each iteration sleeps one second,
issues one status check, and returns on the first success.
`responsive attempt` is the result of the status check issued in the
iteration with loop variable `attempt`. -/
def wait_go (responsive : Nat → Bool) (attempt : Nat) : Nat → WaitRun
  | 0 => { ready := false, checks := 0, sleeps := 0 }
  | remaining + 1 =>
    if responsive attempt then { ready := true, checks := 1, sleeps := 1 }
    else
      let rest := wait_go responsive (attempt + 1) remaining
      { ready := rest.ready, checks := rest.checks + 1, sleeps := rest.sleeps + 1 }

/-- `wait_for_roku_ready` (`roku_caster.py` 53-82). -/
def wait_for_roku_ready (responsive : Nat → Bool) (max_wait_time : Nat) :
    WaitRun :=
  wait_go responsive 0 max_wait_time

/-- `cast_to_roku`'s display-title fallback chain (`roku_caster.py`
110-115): prefer a non-empty confirmed metadata title, then a non-empty
user-supplied request title, then `"Unknown Title"`. -/
def requestTitleFallback (stream : VideoStream) : String :=
  match stream.from_request.title with
  | some t => if t ≠ "" then t else "Unknown Title"
  | none => "Unknown Title"

/-- `display_title` as computed at the top of `cast_to_roku`. -/
def display_title (media_metadata : Option MediaMetadata)
    (stream : VideoStream) : String :=
  match media_metadata with
  | some m =>
    if m.confirmed_title ≠ "" then m.confirmed_title
    else requestTitleFallback stream
  | none => requestTitleFallback stream

/-- The device-side environment of one cast attempt: the outcome of the
initial status query, of the wake command, of each boot-wait status
query, and of the launch command. -/
structure CastEnv where
  first_check : NetResult
  wake : NetResult
  boot_checks : Nat → NetResult
  launch : NetResult

/-- Observable record of one `cast_to_roku` run. -/
structure CastRun where
  video_name : String
  power_on_sent : Bool
  boot_polls : Nat
  boot_sleeps : Nat
  launch_sent : Bool
  launch_url : Option String
  launch_video_name : Option String
  success : Bool
  deriving Repr, DecidableEq

/-- The launch phase of `cast_to_roku` (`roku_caster.py` 165-197):
`raise_for_status` turns any status `≥ 400` into a failure; then only
HTTP 200 is success; raised errors are failures. -/
def launch_outcome : NetResult → Bool
  | .httpOk code => if 400 ≤ code then false else code == 200
  | .exn _ => false

/-- `MEDIA_ASSISTANT_CHANNEL_ID` (`roku_caster.py` line 11). -/
def MEDIA_ASSISTANT_CHANNEL_ID : String := "782875"

/-- `cast_to_roku` (`roku_caster.py` 85-197): fast path when the device
answers the first status query; otherwise wake it and poll for up to 30
seconds; on `PowerOnFailed` or `BootTimeout` fail without launching. -/
def cast_to_roku (stream : VideoStream) (device : RokuDevice)
    (media_metadata : Option MediaMetadata) (env : CastEnv) : CastRun :=
  let title := display_title media_metadata stream
  let url := "http://" ++ device.ip_address ++ ":8060/launch/" ++ MEDIA_ASSISTANT_CHANNEL_ID
  if check_roku_responsive env.first_check then
    { video_name := title, power_on_sent := false, boot_polls := 0,
      boot_sleeps := 0, launch_sent := true, launch_url := some url,
      launch_video_name := some title, success := launch_outcome env.launch }
  else if power_on_roku env.wake then
    let w := wait_for_roku_ready
      (fun attempt => check_roku_responsive (env.boot_checks attempt)) 30
    if w.ready then
      { video_name := title, power_on_sent := true, boot_polls := w.checks,
        boot_sleeps := w.sleeps, launch_sent := true, launch_url := some url,
        launch_video_name := some title, success := launch_outcome env.launch }
    else
      { video_name := title, power_on_sent := true, boot_polls := w.checks,
        boot_sleeps := w.sleeps, launch_sent := false, launch_url := none,
        launch_video_name := none, success := false }
  else
    { video_name := title, power_on_sent := true, boot_polls := 0,
      boot_sleeps := 0, launch_sent := false, launch_url := none,
      launch_video_name := none, success := false }

/-- The `cast_to_roku` invocation of the HTTP cast endpoint
(`app.py` line 371-373) and of the background cast path (`app.py` line
492): both pass only `(selected_stream, target_device, app_config,
http_client)`, so `media_metadata` keeps its default `None`. -/
def app_cast_to_roku (stream : VideoStream) (device : RokuDevice)
    (env : CastEnv) : CastRun :=
  cast_to_roku stream device none env

/-- The `cast_to_roku` invocation of the CLI workflow (`main.py` line
320-322), which passes `media_info` as `media_metadata`. -/
def main_cast_to_roku (stream : VideoStream) (device : RokuDevice)
    (media_info : MediaMetadata) (env : CastEnv) : CastRun :=
  cast_to_roku stream device (some media_info) env

deriving instance DecidableEq for Except

/-! ## Concrete fixtures used by witnesses and counterexamples -/

/-- A concrete user request (raw, unconfirmed title). -/
def reqC : VideoRequest :=
  { title := some "inceptionnn", imdb_id := none, year := some 2010,
    destination_tv := "Living Room TV" }

/-- Concrete confirmed metadata, with a TMDB id. -/
def mdC : MediaMetadata :=
  { confirmed_title := "Inception", year := some 2010, tmdb_id := some 27205 }

/-- Concrete confirmed metadata without a TMDB id. -/
def mdNoId : MediaMetadata :=
  { confirmed_title := "Inception", year := some 2010, tmdb_id := none }

/-- A successful `primebox` response carrying two quality variants. -/
def xprimeDataC : XPrimeData :=
  { status := some "ok",
    streams := some [("1080P", "http://a/x.mp4"), ("720P", "http://a/y.mp4")],
    message := none, repr := "response-body", truthy := true }

/-- A successful `primenet` response carrying one URL. -/
def primenetDataC : PrimenetData :=
  { url := some "http://b/z.mkv", repr := "response-body", truthy := true }

/-- First registered provider call of the concrete aggregation run. -/
def callA : ProviderCall :=
  ProviderCall.xprime "https://xprime.tv/primebox" (UpstreamResult.success xprimeDataC)

/-- Second registered provider call of the concrete aggregation run. -/
def callB : ProviderCall :=
  ProviderCall.primenet (UpstreamResult.success primenetDataC)

/-- The first candidate the first provider returns. -/
def streamX : VideoStream :=
  mkVideoStream "http://a/x.mp4" "mp4" "1080P" reqC
    (xprimeName "https://xprime.tv/primebox")

/-- The second candidate the first provider returns. -/
def streamY : VideoStream :=
  mkVideoStream "http://a/y.mp4" "mp4" "720P" reqC
    (xprimeName "https://xprime.tv/primebox")

/-- The single candidate the second provider returns. -/
def streamZ : VideoStream :=
  mkVideoStream "http://b/z.mkv" "mkv" "HD" reqC primenetName

/-- A device environment for a fast-path cast: the device answers the
first status query and accepts the launch. -/
def envReadyOk : CastEnv :=
  { first_check := NetResult.httpOk 200, wake := NetResult.httpOk 200,
    boot_checks := fun _ => NetResult.httpOk 200, launch := NetResult.httpOk 200 }

/-- A device environment where the initial check times out and the wake
command is rejected with HTTP 500. -/
def envPowerFail : CastEnv :=
  { first_check := NetResult.exn "timeout", wake := NetResult.httpOk 500,
    boot_checks := fun _ => NetResult.httpOk 200, launch := NetResult.httpOk 200 }

/-- A concrete Roku device. -/
def deviceC : RokuDevice := { name := "Living Room TV", ip_address := "10.0.0.16" }

/-! ## Helper lemmas about the aggregation loop -/

/-- Unrolling the provider fan-out fold: starting from any accumulator,
the loop appends each provider's stream and search-result contributions
in registration order. -/
theorem aggregate_foldl_spec (md : MediaMetadata) (req : VideoRequest)
    (calls : List ProviderCall) (acc : List VideoStream × List SearchResult) :
    calls.foldl (fun acc call =>
      match runCall md req call with
      | .ok sources => (acc.1 ++ sources.sources, acc.2 ++ sources.search_results)
      | .error e => (acc.1, acc.2 ++ [exception_search_result (callName call) e]))
      acc
    = (acc.1 ++ (calls.map (callSources md req)).flatten,
       acc.2 ++ (calls.map (callOutcomes md req)).flatten) := by
  induction calls generalizing acc with
  | nil => simp
  | cons c cs ih =>
    simp only [List.foldl_cons, List.map_cons, List.flatten_cons]
    rw [ih]
    cases h : runCall md req c with
    | ok s => simp [callSources, callOutcomes, h]
    | error e => simp [callSources, callOutcomes, h]

/-- The aggregation run is the per-provider contributions, concatenated
in registration order. -/
theorem aggregate_providers_eq (md : MediaMetadata) (req : VideoRequest)
    (calls : List ProviderCall) :
    aggregate_providers md req calls
      = ((calls.map (callSources md req)).flatten,
         (calls.map (callOutcomes md req)).flatten) := by
  unfold aggregate_providers
  rw [aggregate_foldl_spec]
  simp

/-- Every branch of `XPrimeStreamAPI.search_streams` reports exactly one
search result, carrying the provider's `name` as `api_name`. -/
theorem xprime_search_one_result (b : String) (md : MediaMetadata)
    (req : VideoRequest) (resp : UpstreamResult XPrimeData) :
    ∃ r, (xprime_search b md req resp).result.search_results = [r] ∧
      r.api_name = xprimeName b := by
  cases resp with
  | success data =>
    cases hs : data.streams with
    | none =>
      refine ⟨xprimeNoStreamsResult (xprimeName b) md.confirmed_title data, ?_, rfl⟩
      simp [xprime_search, hs, providerRun]
    | some S =>
      by_cases h : data.status = some "ok" ∧ S ≠ []
      · refine ⟨xprimeSuccessResult (xprimeName b) data
          (xprimeSuccessStreams req (xprimeName b) S).length S, ?_, rfl⟩
        simp [xprime_search, hs, h, providerRun]
      · refine ⟨xprimeNoStreamsResult (xprimeName b) md.confirmed_title data, ?_, rfl⟩
        simp [xprime_search, hs, h, providerRun]
  | httpStatusError code text =>
    exact ⟨xprimeHttpErrorResult (xprimeName b) code text,
      by simp [xprime_search, providerRun], rfl⟩
  | requestError msg =>
    exact ⟨requestErrorResult (xprimeName b) msg,
      by simp [xprime_search, providerRun], rfl⟩
  | otherError msg =>
    exact ⟨unknownErrorResult (xprimeName b) msg,
      by simp [xprime_search, providerRun], rfl⟩

/-- Every branch of `XPrimePrimenetAPI.search_streams` reports exactly one
search result, carrying the provider's `name` as `api_name`. -/
theorem primenet_search_one_result (md : MediaMetadata) (req : VideoRequest)
    (resp : UpstreamResult PrimenetData) :
    ∃ r, (primenet_search md req resp).result.search_results = [r] ∧
      r.api_name = primenetName := by
  cases ht : md.tmdb_id with
  | none =>
    exact ⟨primenetNoTmdbIdResult, by simp [primenet_search, ht, providerRun], rfl⟩
  | some tid =>
    cases resp with
    | success data =>
      cases hu : data.url with
      | none =>
        exact ⟨primenetNoUrlResult tid data,
          by simp [primenet_search, ht, hu, providerRun], rfl⟩
      | some u =>
        by_cases h : u = ""
        · refine ⟨primenetNoUrlResult tid data, ?_, rfl⟩
          simp [primenet_search, ht, hu, h, providerRun]
        · refine ⟨primenetSuccessResult tid, ?_, rfl⟩
          simp [primenet_search, ht, hu, h, providerRun]
    | httpStatusError code text =>
      exact ⟨primenetHttpErrorResult tid code text,
        by simp [primenet_search, ht, providerRun], rfl⟩
    | requestError msg =>
      exact ⟨requestErrorResult primenetName msg,
        by simp [primenet_search, ht, providerRun], rfl⟩
    | otherError msg =>
      exact ⟨unknownErrorResult primenetName msg,
        by simp [primenet_search, ht, providerRun], rfl⟩

/-- Every provider call — returning or raising — contributes exactly one
search result to the aggregate, tagged with the provider's name. -/
theorem callOutcomes_one (md : MediaMetadata) (req : VideoRequest)
    (call : ProviderCall) :
    ∃ r, callOutcomes md req call = [r] ∧ r.api_name = callName call := by
  cases call with
  | xprime b resp =>
    obtain ⟨r, hr, hn⟩ := xprime_search_one_result b md req resp
    exact ⟨r, by simp [callOutcomes, runCall, hr], hn⟩
  | primenet resp =>
    obtain ⟨r, hr, hn⟩ := primenet_search_one_result md req resp
    exact ⟨r, by simp [callOutcomes, runCall, hr], hn⟩
  | raises nm msg =>
    exact ⟨exception_search_result nm msg,
      by simp [callOutcomes, runCall, callName], rfl⟩

/-- The api-names of the aggregated outcomes are the provider names, in
registration order. -/
theorem aggregate_outcomes_names (md : MediaMetadata) (req : VideoRequest)
    (calls : List ProviderCall) :
    ((calls.map (callOutcomes md req)).flatten).map (·.api_name)
      = calls.map callName := by
  induction calls with
  | nil => simp
  | cons c cs ih =>
    obtain ⟨r, hr, hn⟩ := callOutcomes_one md req c
    simp [hr, hn, ih]

/-! ## Helper lemmas about the provider-internal quality ordering -/

/-- The preferred-quality loop emits, after any accumulator, exactly the
preferred quality labels present in the upstream map, in preferred order. -/
theorem xprime_first_pass_qualities (S : List (String × String))
    (req : VideoRequest) (api_name : String) :
    ∀ (qs : List String) (acc : List VideoStream),
      ((qs.foldl (fun acc quality =>
        match pyDictGet S quality with
        | some stream_url =>
          acc ++ [mkVideoStream stream_url (get_media_type_from_url stream_url)
                   quality req api_name]
        | none => acc) acc).map (·.quality))
      = acc.map (·.quality) ++ qs.filter (fun q => (pyDictGet S q).isSome) := by
  intro qs
  induction qs with
  | nil => intro acc; simp
  | cons q qs ih =>
    intro acc
    simp only [List.foldl_cons]
    rw [List.filter_cons]
    cases h : pyDictGet S q with
    | some u =>
      simp only [h]
      rw [ih]
      simp [h, mkVideoStream]
    | none =>
      simp only [h]
      rw [ih]
      simp [h]

/-- The remaining-quality loop appends, after any accumulator, exactly
the non-preferred quality labels in upstream order. -/
theorem xprime_second_pass_qualities (req : VideoRequest) (api_name : String) :
    ∀ (items : List (String × String)) (acc : List VideoStream),
      ((items.foldl (fun acc qu =>
        if preferred_qualities.contains qu.1 then acc
        else acc ++ [mkVideoStream qu.2 (get_media_type_from_url qu.2) qu.1
                      req api_name]) acc).map (·.quality))
      = acc.map (·.quality)
        ++ (items.filter (fun qu => !preferred_qualities.contains qu.1)).map (·.1) := by
  intro items
  induction items with
  | nil => intro acc; simp
  | cons qu items ih =>
    intro acc
    simp only [List.foldl_cons]
    rw [List.filter_cons]
    by_cases h : preferred_qualities.contains qu.1
    · have hm : qu.1 ∈ preferred_qualities := by simpa using h
      simp only [if_pos h]
      rw [ih]
      simp [hm]
    · have hm : qu.1 ∉ preferred_qualities := by simpa using h
      simp only [if_neg h]
      rw [ih]
      simp [hm, mkVideoStream]

/-- The quality labels a successful xprime search emits: the preferred
tiers present upstream, in the fixed preference order, then every other
upstream variant in upstream order. -/
theorem xprimeSuccessStreams_qualities (req : VideoRequest) (api_name : String)
    (S : List (String × String)) :
    (xprimeSuccessStreams req api_name S).map (·.quality)
      = preferred_qualities.filter (fun q => (pyDictGet S q).isSome)
        ++ (S.filter (fun qu => !preferred_qualities.contains qu.1)).map (·.1) := by
  unfold xprimeSuccessStreams
  rw [xprime_second_pass_qualities req api_name S, xprime_first_pass_qualities S req api_name]
  simp

/-! ## Claim theorems -/

/-- Claim C1 (code bug): the spec says every candidate a provider returns
carries the provider's display name as its source tag, and indeed every
`VideoStream(...)` call in `xprime_source.py` passes `source_api=self.name` —
but `VideoStream` in `datatypes.py` declares no such field, so pydantic's
default config silently drops the keyword: the stored object has no
`source_api` attribute (reading `stream.source_api`, as `app.py` lines
244 and 379 do, raises `AttributeError`).  Concretely, a successful
provider run returns a non-empty candidate list none of whose elements
carries any source tag. -/
theorem C1_candidate_source_tag :
    (∀ (url media_type quality : String) (from_request : VideoRequest)
      (source_api : String),
      pyGetattr (pydanticInit videoStreamFields
        (videoStreamCallKwargs url media_type quality from_request source_api))
        "source_api" = none) ∧
    videoStreamFields.contains "source_api" = false ∧
    (aggregate_providers mdC reqC [callA]).1 = [streamX, streamY] := by
  refine ⟨fun url mt q r nm => rfl, rfl, by decide⟩

/-- Claim C3, counterexample: a provider raising during the aggregation
run yields a synthesized outcome whose status is `"EXCEPTION"`, not the
`"UNKNOWN_ERROR"` the claim states. -/
theorem C3_counterexample :
    ((aggregate_providers mdC reqC [ProviderCall.raises "ProviderA" "boom"]).2.map
      (·.status)) = [some "EXCEPTION"] ∧
    (some "EXCEPTION" : Option String) ≠ some "UNKNOWN_ERROR" :=
  ⟨by decide, by decide⟩

/-- Claim C3 (amended): for every provider whose `search_streams` raises
during an aggregation run, the engine synthesizes exactly one failed
outcome for it — `success = false`, `streams_found = 0`, status
`"EXCEPTION"` — and still evaluates every remaining provider (their
streams and outcomes all appear in the aggregate). -/
theorem C3_exception_outcome_isolation (md : MediaMetadata)
    (req : VideoRequest) (pre post : List ProviderCall) (nm msg : String) :
    (aggregate_providers md req (pre ++ ProviderCall.raises nm msg :: post)).2
      = (aggregate_providers md req pre).2
        ++ exception_search_result nm msg :: (aggregate_providers md req post).2 ∧
    (aggregate_providers md req (pre ++ ProviderCall.raises nm msg :: post)).1
      = (aggregate_providers md req pre).1 ++ (aggregate_providers md req post).1 ∧
    (exception_search_result nm msg).success = false ∧
    (exception_search_result nm msg).streams_found = 0 ∧
    (exception_search_result nm msg).status = some "EXCEPTION" := by
  refine ⟨?_, ?_, rfl, rfl, rfl⟩
  · simp [aggregate_providers_eq, callOutcomes, runCall, callName]
  · simp [aggregate_providers_eq, callSources, runCall]

/-- Claim C4, counterexample: when the metadata lacks a TMDB id the
primenet provider's single failed outcome has status `"NO_TMDB_ID"`, not
the `MISSING_PRECONDITION` the claim states. -/
theorem C4_counterexample :
    ((primenet_search mdNoId reqC
      (UpstreamResult.success primenetDataC)).result.search_results.map
        (·.status)) = [some "NO_TMDB_ID"] ∧
    (some "NO_TMDB_ID" : Option String) ≠ some "MISSING_PRECONDITION" :=
  ⟨by decide, by decide⟩

/-- Claim C4 (amended): for every metadata input lacking the TMDB id, the
TMDB-ID-based provider immediately returns zero candidates and a single
failed outcome with `success = false`, `streams_found = 0` and status
`"NO_TMDB_ID"`, without issuing any upstream HTTP request. -/
theorem C4_primenet_missing_tmdb_id (md : MediaMetadata) (req : VideoRequest)
    (resp : UpstreamResult PrimenetData) (h : md.tmdb_id = none) :
    (primenet_search md req resp).result.sources = [] ∧
    (primenet_search md req resp).result.search_results = [primenetNoTmdbIdResult] ∧
    primenetNoTmdbIdResult.success = false ∧
    primenetNoTmdbIdResult.streams_found = 0 ∧
    primenetNoTmdbIdResult.status = some "NO_TMDB_ID" ∧
    (primenet_search md req resp).http_requests = 0 := by
  refine ⟨?_, ?_, rfl, rfl, rfl, ?_⟩ <;> simp [primenet_search, h, providerRun]

/-- Witness for C4's theorem at a concrete input. -/
theorem C4_primenet_missing_tmdb_id_witness :
    (primenet_search mdNoId reqC
      (UpstreamResult.success primenetDataC)).result.sources = [] ∧
    (primenet_search mdNoId reqC
      (UpstreamResult.success primenetDataC)).http_requests = 0 := by
  have h := C4_primenet_missing_tmdb_id mdNoId reqC
    (UpstreamResult.success primenetDataC) (by decide)
  exact ⟨h.1, h.2.2.2.2.2⟩

/-- Claim C5: an aggregation run over any registry of N providers — each
one of the concrete provider classes under any upstream outcome, or a
provider raising — produces exactly N outcome records, the i-th tagged
with the i-th provider's name. -/
theorem C5_one_outcome_per_provider (md : MediaMetadata) (req : VideoRequest)
    (calls : List ProviderCall) :
    (aggregate_providers md req calls).2.length = calls.length ∧
    (aggregate_providers md req calls).2.map (·.api_name) = calls.map callName := by
  have h2 : (aggregate_providers md req calls).2.map (·.api_name)
      = calls.map callName := by
    rw [aggregate_providers_eq]
    exact aggregate_outcomes_names md req calls
  refine ⟨?_, h2⟩
  have := congrArg List.length h2
  simpa using this

/-- Claim C6: the aggregated candidate list is the concatenation of the
providers' candidate lists in registration order (the engine never
re-sorts across providers), each provider's own list being its preferred
quality tiers first (1080P, 720P, 480P, 360P order) and the remaining
upstream variants after them in upstream order; in particular a first
provider returning [X, Y] followed by a second returning [Z] aggregates
to exactly [X, Y, Z]. -/
theorem C6_candidate_order :
    (∀ (md : MediaMetadata) (req : VideoRequest) (calls : List ProviderCall),
      (aggregate_providers md req calls).1
        = (calls.map (callSources md req)).flatten) ∧
    (∀ (req : VideoRequest) (api_name : String) (S : List (String × String)),
      (xprimeSuccessStreams req api_name S).map (·.quality)
        = preferred_qualities.filter (fun q => (pyDictGet S q).isSome)
          ++ (S.filter (fun qu => !preferred_qualities.contains qu.1)).map (·.1)) ∧
    (aggregate_providers mdC reqC [callA, callB]).1 = [streamX, streamY, streamZ] := by
  refine ⟨?_, xprimeSuccessStreams_qualities, by decide⟩
  intro md req calls
  rw [aggregate_providers_eq]

/-- Claim C2, counterexample: over a 2-candidate aggregate the selector,
asked for index -3, raises `IndexError` instead of returning the
candidate at the last index; and index -2 returns the first candidate,
not the last one — negative indices are not clamped. -/
theorem C2_counterexample :
    select_stream [streamX, streamY] (-3) = Except.error "IndexError" ∧
    select_stream [streamX, streamY] (-2) = Except.ok streamX ∧
    streamX ≠ streamY :=
  ⟨by decide, by decide, by decide⟩

/-- Claim C2 (amended): for a non-empty aggregate, an index ≥ count - 1 is
clamped to the last index and that candidate is returned without error;
an index in [0, count) returns the candidate at that index; a negative
index is not clamped: in [-count, 0) it selects from the back (Python
negative indexing), and below -count the selector raises an out-of-range
error. -/
theorem C2_select_stream_clamps (xs : List VideoStream) (idx : Int)
    (h : xs ≠ []) :
    (((xs.length : Int) - 1 ≤ idx →
      select_stream xs idx = Except.ok (xs.getLast h)) ∧
    (0 ≤ idx → idx < (xs.length : Int) →
      ∃ s, xs[idx.toNat]? = some s ∧ select_stream xs idx = Except.ok s) ∧
    (-(xs.length : Int) ≤ idx → idx < 0 →
      ∃ s, xs[((xs.length : Int) + idx).toNat]? = some s ∧
        select_stream xs idx = Except.ok s) ∧
    (idx < -(xs.length : Int) →
      select_stream xs idx = Except.error "IndexError")) := by
  have hlen : 0 < xs.length := List.length_pos.mpr h
  refine ⟨?_, ?_, ?_, ?_⟩
  · intro hge
    have hmin : min idx ((xs.length : Int) - 1) = (xs.length : Int) - 1 :=
      min_eq_right hge
    have h0 : (0 : Int) ≤ (xs.length : Int) - 1 := by omega
    have htn : ((xs.length : Int) - 1).toNat = xs.length - 1 := by omega
    have hget : xs[xs.length - 1]? = some (xs.getLast h) := by
      rw [List.getLast_eq_getElem]
      exact List.getElem?_eq_getElem (by omega)
    simp [select_stream, pyListGet, hmin, h0, htn, hget]
  · intro h0 hlt
    have hmin : min idx ((xs.length : Int) - 1) = idx := min_eq_left (by omega)
    have hn : idx.toNat < xs.length := by omega
    refine ⟨_, List.getElem?_eq_getElem hn, ?_⟩
    simp [select_stream, pyListGet, hmin, h0, List.getElem?_eq_getElem hn]
  · intro hle hneg
    have hmin : min idx ((xs.length : Int) - 1) = idx := min_eq_left (by omega)
    have hj : (0 : Int) ≤ (xs.length : Int) + idx := by omega
    have hn : ((xs.length : Int) + idx).toNat < xs.length := by omega
    have hnot : ¬ (0 : Int) ≤ idx := by omega
    refine ⟨_, List.getElem?_eq_getElem hn, ?_⟩
    simp [select_stream, pyListGet, hmin, hnot, hj, List.getElem?_eq_getElem hn]
  · intro hlt
    have hmin : min idx ((xs.length : Int) - 1) = idx := min_eq_left (by omega)
    have hnot : ¬ (0 : Int) ≤ idx := by omega
    have hj : ¬ (0 : Int) ≤ (xs.length : Int) + idx := by omega
    simp [select_stream, pyListGet, hmin, hnot, hj]

/-- Witness for C2's amended theorem at concrete inputs: index 5 over a
2-candidate aggregate is clamped to the last candidate; index -4 raises. -/
theorem C2_select_stream_clamps_witness :
    select_stream [streamX, streamY] 5 = Except.ok streamY ∧
    select_stream [streamX, streamY] (-4) = Except.error "IndexError" := by
  constructor
  · have h1 := (C2_select_stream_clamps [streamX, streamY] 5 (by decide)).1
      (by decide)
    simpa using h1
  · exact (C2_select_stream_clamps [streamX, streamY] (-4) (by decide)).2.2.2
      (by decide)

/-- Full characterization of the boot-wait loop body, by induction on the
remaining iterations: at most `remaining` checks, one sleep per check
(the sleep precedes the check), ready exactly when some check in the
window succeeds, stopping at the first success, and exhausting the window
otherwise. -/
theorem wait_go_spec (resp : Nat → Bool) :
    ∀ (remaining attempt : Nat),
      (wait_go resp attempt remaining).checks ≤ remaining ∧
      (wait_go resp attempt remaining).sleeps = (wait_go resp attempt remaining).checks ∧
      ((wait_go resp attempt remaining).ready = true ↔
        ∃ i, i < remaining ∧ resp (attempt + i) = true) ∧
      ((wait_go resp attempt remaining).ready = true →
        ∃ i, i < remaining ∧ resp (attempt + i) = true ∧
          (∀ j, j < i → resp (attempt + j) = false) ∧
          (wait_go resp attempt remaining).checks = i + 1) ∧
      ((wait_go resp attempt remaining).ready = false →
        (wait_go resp attempt remaining).checks = remaining) := by
  intro remaining
  induction remaining with
  | zero =>
    intro attempt
    simp [wait_go]
  | succ rem ih =>
    intro attempt
    by_cases hr : resp attempt
    · have hw : wait_go resp attempt (rem + 1)
          = { ready := true, checks := 1, sleeps := 1 } := by
        simp [wait_go, hr]
      rw [hw]
      refine ⟨by show 1 ≤ rem + 1; omega, rfl, ?_, ?_, by simp⟩
      · simpa using ⟨0, by omega, by simpa using hr⟩
      · intro _
        exact ⟨0, by omega, by simpa using hr, by omega, rfl⟩
    · have hw : wait_go resp attempt (rem + 1)
          = { ready := (wait_go resp (attempt + 1) rem).ready,
              checks := (wait_go resp (attempt + 1) rem).checks + 1,
              sleeps := (wait_go resp (attempt + 1) rem).sleeps + 1 } := by
        simp [wait_go, hr]
      obtain ⟨ih1, ih2, ih3, ih4, ih5⟩ := ih (attempt + 1)
      rw [hw]
      refine ⟨by simpa using Nat.succ_le_succ ih1, by simpa using ih2, ?_, ?_, ?_⟩
      · simp only
        constructor
        · intro hready
          obtain ⟨i, hi, hre⟩ := ih3.mp hready
          refine ⟨i + 1, by omega, ?_⟩
          have he : attempt + (i + 1) = attempt + 1 + i := by omega
          rw [he]
          exact hre
        · rintro ⟨i, hi, hre⟩
          cases i with
          | zero =>
            exact absurd (by simpa using hre) (by simpa using hr)
          | succ k =>
            refine ih3.mpr ⟨k, by omega, ?_⟩
            have he : attempt + 1 + k = attempt + (k + 1) := by omega
            rw [he]
            exact hre
      · simp only
        intro hready
        obtain ⟨i, hi, hre, hfirst, hchk⟩ := ih4 hready
        refine ⟨i + 1, by omega, ?_, ?_, by omega⟩
        · have he : attempt + (i + 1) = attempt + 1 + i := by omega
          rw [he]
          exact hre
        · intro j hj
          cases j with
          | zero => simpa using hr
          | succ k =>
            have he : attempt + (k + 1) = attempt + 1 + k := by omega
            rw [he]
            exact hfirst k (by omega)
      · simp only
        intro hready
        have := ih5 hready
        omega

/-- Claim C10: a boot-wait with bound n issues at most n status checks,
sleeps exactly once before every check (so sleeps = checks, and a ready
verdict always costs at least one full sleep interval, even when the
device answers the very first check), reports ready exactly when some
check among the n succeeds, stops at the first success, and uses all n
checks when none succeeds. -/
theorem C10_wait_loop (responsive : Nat → Bool) (n : Nat) :
    (wait_for_roku_ready responsive n).checks ≤ n ∧
    (wait_for_roku_ready responsive n).sleeps
      = (wait_for_roku_ready responsive n).checks ∧
    ((wait_for_roku_ready responsive n).ready = true ↔
      ∃ i, i < n ∧ responsive i = true) ∧
    ((wait_for_roku_ready responsive n).ready = true →
      ∃ i, i < n ∧ responsive i = true ∧ (∀ j, j < i → responsive j = false) ∧
        (wait_for_roku_ready responsive n).checks = i + 1) ∧
    ((wait_for_roku_ready responsive n).ready = false →
      (wait_for_roku_ready responsive n).checks = n) ∧
    ((wait_for_roku_ready responsive n).ready = true →
      1 ≤ (wait_for_roku_ready responsive n).sleeps) := by
  obtain ⟨h1, h2, h3, h4, h5⟩ := wait_go_spec responsive n 0
  refine ⟨h1, h2, by simpa using h3, by simpa using h4, h5, ?_⟩
  intro hready
  obtain ⟨i, _, _, _, hchk⟩ := h4 hready
  show 1 ≤ (wait_go responsive 0 n).sleeps
  rw [h2]
  omega

/-- Witness for C10's theorem: with a device that answers the third
check, the wait over a 30-second window is ready, after exactly 3 checks
and 3 sleeps. -/
theorem C10_wait_loop_witness :
    (wait_for_roku_ready (fun i => i == 2) 30).ready = true ∧
    (wait_for_roku_ready (fun i => i == 2) 30).checks ≤ 30 ∧
    1 ≤ (wait_for_roku_ready (fun i => i == 2) 30).sleeps := by
  have h := C10_wait_loop (fun i => i == 2) 30
  have hready : (wait_for_roku_ready (fun i => i == 2) 30).ready = true :=
    h.2.2.1.mpr ⟨2, by decide, by decide⟩
  exact ⟨hready, h.1, h.2.2.2.2.2 hready⟩

/-- Claim C8: when the initial readiness check fails and the wake command
returns anything but HTTP 200 or 202 (timeouts and transport errors
included), the cast attempt fails immediately: zero boot-wait polls are
issued and the launch command is never sent. -/
theorem C8_power_on_failure_aborts (stream : VideoStream) (device : RokuDevice)
    (media_metadata : Option MediaMetadata) (env : CastEnv)
    (h1 : check_roku_responsive env.first_check = false)
    (h2 : ∀ code, env.wake = NetResult.httpOk code → code ≠ 200 ∧ code ≠ 202) :
    (cast_to_roku stream device media_metadata env).boot_polls = 0 ∧
    (cast_to_roku stream device media_metadata env).boot_sleeps = 0 ∧
    (cast_to_roku stream device media_metadata env).launch_sent = false ∧
    (cast_to_roku stream device media_metadata env).success = false := by
  have hwake : power_on_roku env.wake = false := by
    cases hc : env.wake with
    | httpOk code =>
      obtain ⟨hne1, hne2⟩ := h2 code hc
      simp [power_on_roku, hne1, hne2]
    | exn msg => rfl
  refine ⟨?_, ?_, ?_, ?_⟩ <;> simp [cast_to_roku, h1, hwake]

/-- Witness for C8's theorem: initial check times out, wake returns
HTTP 500. -/
theorem C8_power_on_failure_aborts_witness :
    (cast_to_roku streamX deviceC none envPowerFail).boot_polls = 0 ∧
    (cast_to_roku streamX deviceC none envPowerFail).boot_sleeps = 0 ∧
    (cast_to_roku streamX deviceC none envPowerFail).launch_sent = false ∧
    (cast_to_roku streamX deviceC none envPowerFail).success = false := by
  refine C8_power_on_failure_aborts streamX deviceC none envPowerFail (by decide) ?_
  intro code hc
  have : code = 500 := by
    have h : NetResult.httpOk 500 = NetResult.httpOk code := hc
    cases h
    rfl
  omega

/-- Claim C9, counterexample: the HTTP cast endpoint and the background
cast path invoke the launcher without passing the metadata, so even
though a confirmed metadata title ("Inception") exists alongside the raw
user-supplied title ("inceptionnn"), the launch command's `videoName`
parameter carries the raw user title. -/
theorem C9_counterexample :
    (app_cast_to_roku streamX deviceC envReadyOk).launch_sent = true ∧
    (app_cast_to_roku streamX deviceC envReadyOk).launch_video_name
      = some "inceptionnn" ∧
    mdC.confirmed_title = "Inception" ∧
    (some "inceptionnn" : Option String) ≠ some "Inception" :=
  ⟨by decide, by decide, by decide, by decide⟩

/-- Claim C9 (amended): the Cast Launcher itself prefers the confirmed
metadata title whenever it is handed metadata — as the CLI workflow path
does — but the HTTP cast endpoint and the background cast path invoke it
without metadata, so on those paths the launch command carries the raw
user-supplied request title (when non-empty). -/
theorem C9_display_title :
    (∀ (stream : VideoStream) (device : RokuDevice) (md : MediaMetadata)
      (env : CastEnv), md.confirmed_title ≠ "" →
      (main_cast_to_roku stream device md env).launch_sent = true →
      (main_cast_to_roku stream device md env).launch_video_name
        = some md.confirmed_title) ∧
    (∀ (stream : VideoStream) (device : RokuDevice) (env : CastEnv)
      (t : String), stream.from_request.title = some t → t ≠ "" →
      (app_cast_to_roku stream device env).launch_sent = true →
      (app_cast_to_roku stream device env).launch_video_name = some t) := by
  constructor
  · intro stream device md env hne hsent
    have htitle : display_title (some md) stream = md.confirmed_title := by
      simp [display_title, hne]
    unfold main_cast_to_roku cast_to_roku at hsent ⊢
    by_cases hc : check_roku_responsive env.first_check
    · simp [hc, htitle]
    · by_cases hp : power_on_roku env.wake
      · by_cases hwr : (wait_for_roku_ready
          (fun attempt => check_roku_responsive (env.boot_checks attempt)) 30).ready
        · simp [hc, hp, hwr, htitle]
        · simp [hc, hp, hwr] at hsent
      · simp [hc, hp] at hsent
  · intro stream device env t ht hne hsent
    have htitle : display_title none stream = t := by
      simp [display_title, requestTitleFallback, ht, hne]
    unfold app_cast_to_roku cast_to_roku at hsent ⊢
    by_cases hc : check_roku_responsive env.first_check
    · simp [hc, htitle]
    · by_cases hp : power_on_roku env.wake
      · by_cases hwr : (wait_for_roku_ready
          (fun attempt => check_roku_responsive (env.boot_checks attempt)) 30).ready
        · simp [hc, hp, hwr, htitle]
        · simp [hc, hp, hwr] at hsent
      · simp [hc, hp] at hsent

/-- Witness for C9's amended theorem: the CLI path launches with the
confirmed title, the endpoint path with the raw user title. -/
theorem C9_display_title_witness :
    (main_cast_to_roku streamX deviceC mdC envReadyOk).launch_video_name
      = some "Inception" ∧
    (app_cast_to_roku streamX deviceC envReadyOk).launch_video_name
      = some "inceptionnn" := by
  constructor
  · have h := C9_display_title.1 streamX deviceC mdC envReadyOk (by decide) (by decide)
    simpa using h
  · exact C9_display_title.2 streamX deviceC envReadyOk "inceptionnn"
      (by decide) (by decide) (by decide)

/-! ## Helper lemmas about suffix matching -/

/-- Two mutually non-suffix patterns cannot both be suffixes of the same
string: if `p` ends with `a` it does not end with `b`. -/
theorem pyEndswith_unique (p a b : String)
    (hna : ¬ a.data <:+ b.data) (hnb : ¬ b.data <:+ a.data)
    (ha : pyEndswith p a = true) : pyEndswith p b = false := by
  have hsa : a.data <:+ p.data := by
    unfold pyEndswith at ha
    exact List.isSuffixOf_iff_suffix.mp ha
  cases hb : pyEndswith p b with
  | false => rfl
  | true =>
    have hsb : b.data <:+ p.data := by
      unfold pyEndswith at hb
      exact List.isSuffixOf_iff_suffix.mp hb
    rcases List.suffix_or_suffix_of_suffix hsa hsb with h | h
    · exact absurd h hna
    · exact absurd h hnb

/-- A string that ends with `"." ++ e` contains a dot. -/
theorem pyEndswith_dot (p e : String) (h : pyEndswith p ("." ++ e) = true) :
    pyContainsDot p = true := by
  have hs : ("." ++ e).data <:+ p.data := by
    unfold pyEndswith at h
    exact List.isSuffixOf_iff_suffix.mp h
  have hd : ("." ++ e).data = '.' :: e.data := by
    have hdot1 : ".".data = ['.'] := rfl
    rw [String.data_append, hdot1]
    rfl
  have hm : '.' ∈ p.data := hs.mem (by rw [hd]; exact List.mem_cons_self _ _)
  simpa [pyContainsDot] using hm

/-- Claim C7, counterexample: for the URL `http://host/video.stream` no
known extension matches and the path has the suffix `stream` after a dot,
yet media-type inference returns `"mp4"`, not that suffix verbatim (the
code only uses a suffix of length at most 4). -/
theorem C7_counterexample :
    get_media_type_from_url "http://host/video.stream" = "mp4" ∧
    (∀ e ∈ video_extensions,
      pyEndswith (pathPart "http://host/video.stream") ("." ++ e) = false) ∧
    pyContainsDot (pathPart "http://host/video.stream") = true ∧
    pyLastDotSegment (pathPart "http://host/video.stream") = "stream" ∧
    "mp4" ≠ "stream" :=
  ⟨by decide, by decide, by decide, by decide, by decide⟩

/-- Claim C7 (amended): media-type inference first strips the query
string and lowercases; if the result ends in one of the known video
extensions it returns that extension; otherwise, if the result contains a
dot, the suffix after the last dot is returned only when it is
alphanumeric and at most 4 characters long (and it is the lowercased
suffix, not the verbatim one), else `"mp4"`; with no dot, `"mp4"`.  A URL
ending in `.mkv?token=abc` still infers `"mkv"`. -/
theorem C7_media_type_inference :
    (∀ (url e : String), e ∈ video_extensions →
      pyEndswith (pathPart url) ("." ++ e) = true →
      get_media_type_from_url url = e) ∧
    (∀ url : String,
      (∀ e ∈ video_extensions, pyEndswith (pathPart url) ("." ++ e) = false) →
      pyContainsDot (pathPart url) = true →
      get_media_type_from_url url =
        (if ((pyLastDotSegment (pathPart url)).length ≤ 4 &&
            pyIsAlnum (pyLastDotSegment (pathPart url))) = true then
          pyLastDotSegment (pathPart url)
        else "mp4")) ∧
    (∀ url : String, pyContainsDot (pathPart url) = false →
      get_media_type_from_url url = "mp4") ∧
    get_media_type_from_url "https://cdn.example.com/movie.mkv?token=abc" = "mkv" := by
  refine ⟨?_, ?_, ?_, by decide⟩
  · intro url e hmem hend
    simp only [video_extensions] at hmem
    fin_cases hmem
    ·
      have hends : pyEndswith (pathPart url) ".mp4" = true := by simpa using hend
      simp [get_media_type_from_url, video_extensions, List.find?_cons, hends]
    ·
      have hends : pyEndswith (pathPart url) ".mkv" = true := by simpa using hend
      have h0 : pyEndswith (pathPart url) ".mp4" = false := by
        simpa using pyEndswith_unique (pathPart url) ("." ++ "mkv")
          ("." ++ "mp4") (by decide) (by decide) hend
      simp [get_media_type_from_url, video_extensions, List.find?_cons, hends, h0]
    ·
      have hends : pyEndswith (pathPart url) ".avi" = true := by simpa using hend
      have h0 : pyEndswith (pathPart url) ".mp4" = false := by
        simpa using pyEndswith_unique (pathPart url) ("." ++ "avi")
          ("." ++ "mp4") (by decide) (by decide) hend
      have h1 : pyEndswith (pathPart url) ".mkv" = false := by
        simpa using pyEndswith_unique (pathPart url) ("." ++ "avi")
          ("." ++ "mkv") (by decide) (by decide) hend
      simp [get_media_type_from_url, video_extensions, List.find?_cons, hends, h0, h1]
    ·
      have hends : pyEndswith (pathPart url) ".mov" = true := by simpa using hend
      have h0 : pyEndswith (pathPart url) ".mp4" = false := by
        simpa using pyEndswith_unique (pathPart url) ("." ++ "mov")
          ("." ++ "mp4") (by decide) (by decide) hend
      have h1 : pyEndswith (pathPart url) ".mkv" = false := by
        simpa using pyEndswith_unique (pathPart url) ("." ++ "mov")
          ("." ++ "mkv") (by decide) (by decide) hend
      have h2 : pyEndswith (pathPart url) ".avi" = false := by
        simpa using pyEndswith_unique (pathPart url) ("." ++ "mov")
          ("." ++ "avi") (by decide) (by decide) hend
      simp [get_media_type_from_url, video_extensions, List.find?_cons, hends, h0, h1, h2]
    ·
      have hends : pyEndswith (pathPart url) ".wmv" = true := by simpa using hend
      have h0 : pyEndswith (pathPart url) ".mp4" = false := by
        simpa using pyEndswith_unique (pathPart url) ("." ++ "wmv")
          ("." ++ "mp4") (by decide) (by decide) hend
      have h1 : pyEndswith (pathPart url) ".mkv" = false := by
        simpa using pyEndswith_unique (pathPart url) ("." ++ "wmv")
          ("." ++ "mkv") (by decide) (by decide) hend
      have h2 : pyEndswith (pathPart url) ".avi" = false := by
        simpa using pyEndswith_unique (pathPart url) ("." ++ "wmv")
          ("." ++ "avi") (by decide) (by decide) hend
      have h3 : pyEndswith (pathPart url) ".mov" = false := by
        simpa using pyEndswith_unique (pathPart url) ("." ++ "wmv")
          ("." ++ "mov") (by decide) (by decide) hend
      simp [get_media_type_from_url, video_extensions, List.find?_cons, hends, h0, h1, h2, h3]
    ·
      have hends : pyEndswith (pathPart url) ".flv" = true := by simpa using hend
      have h0 : pyEndswith (pathPart url) ".mp4" = false := by
        simpa using pyEndswith_unique (pathPart url) ("." ++ "flv")
          ("." ++ "mp4") (by decide) (by decide) hend
      have h1 : pyEndswith (pathPart url) ".mkv" = false := by
        simpa using pyEndswith_unique (pathPart url) ("." ++ "flv")
          ("." ++ "mkv") (by decide) (by decide) hend
      have h2 : pyEndswith (pathPart url) ".avi" = false := by
        simpa using pyEndswith_unique (pathPart url) ("." ++ "flv")
          ("." ++ "avi") (by decide) (by decide) hend
      have h3 : pyEndswith (pathPart url) ".mov" = false := by
        simpa using pyEndswith_unique (pathPart url) ("." ++ "flv")
          ("." ++ "mov") (by decide) (by decide) hend
      have h4 : pyEndswith (pathPart url) ".wmv" = false := by
        simpa using pyEndswith_unique (pathPart url) ("." ++ "flv")
          ("." ++ "wmv") (by decide) (by decide) hend
      simp [get_media_type_from_url, video_extensions, List.find?_cons, hends, h0, h1, h2, h3, h4]
    ·
      have hends : pyEndswith (pathPart url) ".webm" = true := by simpa using hend
      have h0 : pyEndswith (pathPart url) ".mp4" = false := by
        simpa using pyEndswith_unique (pathPart url) ("." ++ "webm")
          ("." ++ "mp4") (by decide) (by decide) hend
      have h1 : pyEndswith (pathPart url) ".mkv" = false := by
        simpa using pyEndswith_unique (pathPart url) ("." ++ "webm")
          ("." ++ "mkv") (by decide) (by decide) hend
      have h2 : pyEndswith (pathPart url) ".avi" = false := by
        simpa using pyEndswith_unique (pathPart url) ("." ++ "webm")
          ("." ++ "avi") (by decide) (by decide) hend
      have h3 : pyEndswith (pathPart url) ".mov" = false := by
        simpa using pyEndswith_unique (pathPart url) ("." ++ "webm")
          ("." ++ "mov") (by decide) (by decide) hend
      have h4 : pyEndswith (pathPart url) ".wmv" = false := by
        simpa using pyEndswith_unique (pathPart url) ("." ++ "webm")
          ("." ++ "wmv") (by decide) (by decide) hend
      have h5 : pyEndswith (pathPart url) ".flv" = false := by
        simpa using pyEndswith_unique (pathPart url) ("." ++ "webm")
          ("." ++ "flv") (by decide) (by decide) hend
      simp [get_media_type_from_url, video_extensions, List.find?_cons, hends, h0, h1, h2, h3, h4, h5]
    ·
      have hends : pyEndswith (pathPart url) ".m3u8" = true := by simpa using hend
      have h0 : pyEndswith (pathPart url) ".mp4" = false := by
        simpa using pyEndswith_unique (pathPart url) ("." ++ "m3u8")
          ("." ++ "mp4") (by decide) (by decide) hend
      have h1 : pyEndswith (pathPart url) ".mkv" = false := by
        simpa using pyEndswith_unique (pathPart url) ("." ++ "m3u8")
          ("." ++ "mkv") (by decide) (by decide) hend
      have h2 : pyEndswith (pathPart url) ".avi" = false := by
        simpa using pyEndswith_unique (pathPart url) ("." ++ "m3u8")
          ("." ++ "avi") (by decide) (by decide) hend
      have h3 : pyEndswith (pathPart url) ".mov" = false := by
        simpa using pyEndswith_unique (pathPart url) ("." ++ "m3u8")
          ("." ++ "mov") (by decide) (by decide) hend
      have h4 : pyEndswith (pathPart url) ".wmv" = false := by
        simpa using pyEndswith_unique (pathPart url) ("." ++ "m3u8")
          ("." ++ "wmv") (by decide) (by decide) hend
      have h5 : pyEndswith (pathPart url) ".flv" = false := by
        simpa using pyEndswith_unique (pathPart url) ("." ++ "m3u8")
          ("." ++ "flv") (by decide) (by decide) hend
      have h6 : pyEndswith (pathPart url) ".webm" = false := by
        simpa using pyEndswith_unique (pathPart url) ("." ++ "m3u8")
          ("." ++ "webm") (by decide) (by decide) hend
      simp [get_media_type_from_url, video_extensions, List.find?_cons, hends, h0, h1, h2, h3, h4, h5, h6]
  · intro url hnone hdot
    have hfind : video_extensions.find?
        (fun ext => pyEndswith (pathPart url) ("." ++ ext)) = none := by
      apply List.find?_eq_none.mpr
      intro x hx
      simp [hnone x hx]
    simp [get_media_type_from_url, hfind, hdot]
  · intro url hnd
    have hnone : ∀ e ∈ video_extensions,
        pyEndswith (pathPart url) ("." ++ e) = false := by
      intro e he
      cases h : pyEndswith (pathPart url) ("." ++ e) with
      | false => rfl
      | true => exact absurd (pyEndswith_dot _ e h) (by simp [hnd])
    have hfind : video_extensions.find?
        (fun ext => pyEndswith (pathPart url) ("." ++ ext)) = none := by
      apply List.find?_eq_none.mpr
      intro x hx
      simp [hnone x hx]
    simp [get_media_type_from_url, hfind, hnd]

/-- Witness for C7's amended theorem at concrete URLs. -/
theorem C7_media_type_inference_witness :
    get_media_type_from_url "https://cdn.example.com/movie.mkv?token=abc" = "mkv" ∧
    get_media_type_from_url "http://host/video.stream" = "mp4" ∧
    get_media_type_from_url "http://host/video" = "mp4" := by
  refine ⟨?_, ?_, ?_⟩
  · exact C7_media_type_inference.1 "https://cdn.example.com/movie.mkv?token=abc"
      "mkv" (by decide) (by decide)
  · have h := C7_media_type_inference.2.1 "http://host/video.stream"
      (by decide) (by decide)
    simpa using h
  · exact C7_media_type_inference.2.2.1 "http://host/video" (by decide)
